import Mathlib

/-!
# Verification of the geospatial utility layer of the Accessible-Parking locator

Shallow embedding of the repository's geospatial helpers:

* `formatDistance` — web client, `src/unnamed/part_007`
* `formatDistanceKt` — Android client, `HomeMapScreen.kt` (`formatDistance`)
* `isInKingstonBounds` — Android client, `HomeMapScreen.kt`
* `decodePolyline` — Android client, `HomeMapScreen.kt`
* `centroidFromCoords` — backend, `src/server.mjs`
* `computeCentroid` — Android client, `GeoJsonParkingRepository.kt`
* `lotCentroidScan` — web client, `src/src/App.tsx`
  (the geometry scan inside `lotCentroidsWithAccessibleSpaces`)
* `haversineMeters`, `haversineMetersServer`, `haversineMetersKt` — the three
  haversine copies (web, backend, Android)

IEEE doubles are modelled by exact rationals where only finite values flow
(formatting, polyline scaling, bounding boxes), by the four-way type `JNum`
where NaN/Infinity propagation matters (centroid scans), and by real numbers
for the trigonometric distance formulas.
-/

namespace ParkingGeo

/-! ## Distance formatting -/

/-- JavaScript `Math.round`: round half toward positive infinity,
`Math.round(x) = ⌊x + 1/2⌋`. -/
def jsRound (q : ℚ) : ℤ := ⌊q + 1 / 2⌋

/-- The low two decimal digits of a nonnegative integer, zero padded. -/
def twoDigits (n : ℤ) : String :=
  let r := (n % 100).toNat
  if r < 10 then "0" ++ toString r else toString r

/-- JavaScript `Number.prototype.toFixed(2)` on a nonnegative value, over exact
rationals: round to the nearest hundredth (ties up) and print exactly two
digits after the decimal point. -/
def toFixed2 (q : ℚ) : String :=
  let n : ℤ := ⌊q * 100 + 1 / 2⌋
  toString (n / 100) ++ "." ++ twoDigits n

/-- Web client `formatDistance` (`src/unnamed/part_007`, lines 20-23):
`meters < 1000` formats `Math.round(meters)` with a `" m"` suffix, otherwise
`(meters / 1000).toFixed(2)` with a `" km"` suffix. -/
def formatDistance (meters : ℚ) : String :=
  if meters < 1000 then toString (jsRound meters) ++ " m"
  else toFixed2 (meters / 1000) ++ " km"

/-- Java `String.format` `%.1f` / `%.0f` rounding: `RoundingMode.HALF_UP`,
i.e. round half away from zero. -/
def halfUp (q : ℚ) : ℤ := if 0 ≤ q then ⌊q + 1 / 2⌋ else -⌊-q + 1 / 2⌋

/-- Android client `formatDistance` (`HomeMapScreen.kt`, lines 842-848):
`meters >= 1000.0` formats `meters / 1000.0` with `"%.1f km"`, else `"%.0f m"`,
both through `Locale.getDefault()`; the locale's decimal separator is passed
here explicitly as `sep`. -/
def formatDistanceKt (sep : Char) (meters : ℚ) : String :=
  if 1000 ≤ meters then
    let n := halfUp (meters / 1000 * 10)
    toString (n / 10) ++ String.singleton sep ++ toString (n % 10) ++ " km"
  else
    toString (halfUp meters) ++ " m"

/-! ## Bounding-region test -/

def KINGSTON_MIN_LAT : ℚ := 44.10
def KINGSTON_MAX_LAT : ℚ := 44.40
def KINGSTON_MIN_LNG : ℚ := -76.70
def KINGSTON_MAX_LNG : ℚ := -76.20

/-- Android client `isInKingstonBounds` (`HomeMapScreen.kt`, lines 91-94):
Kotlin `latitude in MIN_LAT..MAX_LAT && longitude in MIN_LNG..MAX_LNG`;
`in` on a closed floating range is inclusive on both ends. -/
def isInKingstonBounds (lat lng : ℚ) : Bool :=
  decide (KINGSTON_MIN_LAT ≤ lat ∧ lat ≤ KINGSTON_MAX_LAT) &&
  decide (KINGSTON_MIN_LNG ≤ lng ∧ lng ≤ KINGSTON_MAX_LNG)

/-! ## Encoded-polyline decoder

`decodePolyline` (`HomeMapScreen.kt`, lines 862-898) works on Kotlin `Int`
(32-bit two's complement) accumulators.  The embedding keeps those semantics:
`toI32` wraps to `[-2^31, 2^31)`, `b and 0x1f` is `b % 32` (`%` is `emod`),
`shl` multiplies by `2 ^ (shift % 32)` (Kotlin masks the shift count to five
bits) and wraps, `shr 1` is the arithmetic shift `Int.fdiv · 2`, and `inv` is
the bitwise complement `-· - 1`.  A thrown
`StringIndexOutOfBoundsException` is modelled as `none`. -/

/-- Wrap an integer to Kotlin `Int` (32-bit two's complement) range. -/
def toI32 (n : ℤ) : ℤ := (n + 2 ^ 31) % 2 ^ 32 - 2 ^ 31

/-- Kotlin `(b and 0x1f) shl shift` on `Int`: keep the low five bits, shift by
`shift % 32`, wrap to 32 bits. -/
def shl32 (b : ℤ) (shift : ℕ) : ℤ := toI32 (b % 32 * 2 ^ (shift % 32))

/-- Un-zig-zag (`HomeMapScreen.kt` lines 875 and 884): if the low bit is set
the delta is `(result shr 1).inv()`, else `result shr 1`; `shr` is the
arithmetic shift (floor division by two) and `inv` is `-· - 1`. -/
def unzigzag (r : ℤ) : ℤ := if r % 2 = 1 then -(Int.fdiv r 2) - 1 else Int.fdiv r 2

/-- One `do { b = poly[index++].code - 63; result = result or ((b and 0x1f)
shl shift); shift += 5 } while (b >= 0x20 && index < len)` group.  Returns the
accumulated `result` and the unconsumed rest of the string.  The do-while
reads its first character unconditionally; callers only invoke it on a
nonempty list (the empty case is unreachable). -/
def readGroup : List ℤ → ℤ → ℕ → ℤ × List ℤ
  | [], result, _ => (result, [])
  | c :: cs, result, shift =>
    let b := c - 63
    let r := Int.lor result (shl32 b shift)
    if 32 ≤ b ∧ cs ≠ [] then readGroup cs r (shift + 5) else (r, cs)

/-- The `while (index < len)` loop of `decodePolyline`: decode a latitude
group, then a longitude group, add the un-zig-zagged deltas to the running
32-bit accumulators and emit the pair.  Entering the longitude group with the
string exhausted is the out-of-bounds read `poly[index++]` — modelled `none`.
`fuel` is an upper bound on the iteration count; `decodePolyline` passes
`length + 1`, which `decodeLoop_fuel` below proves is never exhausted. -/
def decodeLoop : ℕ → List ℤ → ℤ → ℤ → List (ℤ × ℤ) → Option (List (ℤ × ℤ))
  | 0, _, _, _, _ => none
  | _ + 1, [], _, _, acc => some acc.reverse
  | fuel + 1, c :: cs, lat, lng, acc =>
    let p1 := readGroup (c :: cs) 0 0
    let lat1 := toI32 (lat + unzigzag p1.1)
    match p1.2 with
    | [] => none
    | c2 :: cs2 =>
      let p2 := readGroup (c2 :: cs2) 0 0
      let lng1 := toI32 (lng + unzigzag p2.1)
      decodeLoop fuel p2.2 lat1 lng1 ((lat1, lng1) :: acc)

/-- Kotlin `Char.isWhitespace` restricted to the ASCII range (the only
characters the polyline alphabet shares with whitespace). -/
def isWs (c : Char) : Bool := c = ' ' || c = '\t' || c = '\n' || c = '\r'

/-- Kotlin `String.trim()`: drop leading and trailing whitespace. -/
def kotlinTrim (l : List Char) : List Char :=
  ((l.dropWhile isWs).reverse.dropWhile isWs).reverse

/-- `decodePolyline` (`HomeMapScreen.kt`, lines 862-898), at the level of the
integer accumulators: `val poly = encoded.trim()`, empty input gives the empty
list, then the group-decoding loop.  `none` models the
`StringIndexOutOfBoundsException` thrown by `poly[index++]` past the end. -/
def decodePolyline (encoded : String) : Option (List (ℤ × ℤ)) :=
  let poly := kotlinTrim encoded.toList
  decodeLoop (poly.length + 1) (poly.map fun ch => (ch.toNat : ℤ)) 0 0 []

/-- The emitted points: `LatLng(lat / 1E5, lng / 1E5)` over exact rationals. -/
def decodePolylineLatLngs (encoded : String) : Option (List (ℚ × ℚ)) :=
  (decodePolyline encoded).map (List.map fun p => ((p.1 : ℚ) / 100000, (p.2 : ℚ) / 100000))

/-! ## Centroid extraction

JavaScript / Kotlin doubles are modelled by `JNum`: an exact rational for the
finite values, plus `nan`, `inf` and `ninf`.  A GeoJSON position is the pair
`(lng, lat)` in that order (RFC 7946). -/

inductive JNum where
  | fin (q : ℚ)
  | nan
  | inf
  | ninf
deriving DecidableEq, Repr

/-- `Number.isFinite` / `Double.isFinite`. -/
def JNum.isFinite : JNum → Bool
  | .fin _ => true
  | _ => false

/-- `Double.isNaN` (note: `false` for the infinities). -/
def JNum.isNaN : JNum → Bool
  | .nan => true
  | _ => false

/-- IEEE addition on the modelled values: NaN propagates, opposite infinities
give NaN, an infinity absorbs finite values. -/
def JNum.add : JNum → JNum → JNum
  | .fin a, .fin b => .fin (a + b)
  | .nan, _ => .nan
  | _, .nan => .nan
  | .inf, .ninf => .nan
  | .ninf, .inf => .nan
  | .inf, _ => .inf
  | _, .inf => .inf
  | .ninf, _ => .ninf
  | _, .ninf => .ninf

/-- IEEE division by a positive integer count. -/
def JNum.divNat : JNum → ℕ → JNum
  | .fin q, k => .fin (q / k)
  | .nan, _ => .nan
  | .inf, _ => .inf
  | .ninf, _ => .ninf

/-- Kotlin `sumOf` over doubles: left fold of `+` starting at `0.0`. -/
def sumJ (l : List JNum) : JNum := l.foldl JNum.add (.fin 0)

/-- One `visit(pt)` step of the min/max scans (`centroidFromCoords` in
`server.mjs`, the inline scan in `App.tsx`): skip the point unless both
coordinates are finite, else update the running
`(minLat, maxLat, minLng, maxLng)` box.  The JavaScript
`±Infinity` sentinels ("nothing visited yet") are modelled as `none`. -/
def visitPt (acc : Option (ℚ × ℚ × ℚ × ℚ)) (pt : JNum × JNum) :
    Option (ℚ × ℚ × ℚ × ℚ) :=
  match pt with
  | (.fin lng, .fin lat) =>
    match acc with
    | none => some (lat, lat, lng, lng)
    | some (a, b, c, d) => some (min a lat, max b lat, min c lng, max d lng)
  | _ => acc

/-- The final step shared by both scans: `null` when the box is still at its
sentinels (nothing finite was visited), else the box midpoint
`{ lat: (minLat+maxLat)/2, lng: (minLng+maxLng)/2 }`, returned `(lat, lng)`. -/
def boxMid : Option (ℚ × ℚ × ℚ × ℚ) → Option (ℚ × ℚ)
  | none => none
  | some (a, b, c, d) => some ((a + b) / 2, (c + d) / 2)

/-- The nested coordinate arrays fed to `centroidFromCoords` (`server.mjs`):
either an array of positions (a ring — `typeof first?.[0] === 'number'`), or
an array of nested arrays (a polygon's rings, a multipolygon's polygons). -/
inductive Coords where
  | ring (pts : List (JNum × JNum))
  | nest (subs : List Coords)

mutual

/-- `centroidFromCoords` (`server.mjs`, lines 75-106): for a ring, min/max
scan over its positions; for a nested array, the same scan over the non-null
centroids of the sub-arrays, each visited as the position
`[c.lng, c.lat]`; `null` when nothing finite was visited. -/
def centroidFromCoords : Coords → Option (ℚ × ℚ)
  | .ring pts => boxMid (pts.foldl visitPt none)
  | .nest subs => boxMid ((subCentroids subs).foldl visitPt none)

/-- The `for (const sub of coords) { const c = centroidFromCoords(sub);
if (!c) continue; visit([c.lng, c.lat]); }` loop of `centroidFromCoords`:
the list of positions actually visited. -/
def subCentroids : List Coords → List (JNum × JNum)
  | [] => []
  | s :: rest =>
    match centroidFromCoords s with
    | none => subCentroids rest
    | some c => (JNum.fin c.2, JNum.fin c.1) :: subCentroids rest

end

/-- The GeoJSON geometry object seen by `computeCentroid`
(`GeoJsonParkingRepository.kt`): its `type` tag and `coordinates`. -/
inductive Geometry where
  | polygon (rings : List (List (JNum × JNum)))
  | multiPolygon (polys : List (List (List (JNum × JNum))))
  | other

/-- `extractPolygonPoints` (`GeoJsonParkingRepository.kt`, lines 92-104):
take ring 0 only (`optJSONArray(0)`), keep each `(lng, lat)` pair where
neither coordinate `isNaN()` — infinities pass the filter. -/
def extractPolygonPoints (rings : List (List (JNum × JNum))) : List (JNum × JNum) :=
  match rings with
  | [] => []
  | ring :: _ => ring.filter fun p => !p.1.isNaN && !p.2.isNaN

/-- `computeCentroid` (`GeoJsonParkingRepository.kt`, lines 73-90): Polygon
uses `extractPolygonPoints(coordinates)`; MultiPolygon uses polygon 0 only;
other types give no points; `null` when the point list is empty, else the
**arithmetic mean** `(sum lng / n, sum lat / n)`, returned `(avgLat, avgLng)`. -/
def computeCentroid (g : Geometry) : Option (JNum × JNum) :=
  let points : List (JNum × JNum) :=
    match g with
    | .polygon rings => extractPolygonPoints rings
    | .multiPolygon polys =>
      match polys with
      | [] => []
      | p0 :: _ => extractPolygonPoints p0
    | .other => []
  if points.isEmpty then none
  else
    some ((sumJ (points.map Prod.snd)).divNat points.length,
          (sumJ (points.map Prod.fst)).divNat points.length)

/-- The centroid scan inside `lotCentroidsWithAccessibleSpaces`
(`src/src/App.tsx`, lines 151-182), for one lot's geometry: the same min/max
scan over **every** point of **every** ring of **every** polygon, `none` (the
lot is skipped by `continue`) when nothing finite was seen. -/
def lotCentroidScan (polys : List (List (List (JNum × JNum)))) : Option (ℚ × ℚ) :=
  boxMid (polys.foldl (fun acc poly => poly.foldl (fun acc2 ring => ring.foldl visitPt acc2) acc) none)

/-! ## The spec's wording of the centroid, for comparison -/

/-- The finite positions of a position list, transposed to `(lat, lng)`. -/
def finPts (pts : List (JNum × JNum)) : List (ℚ × ℚ) :=
  pts.filterMap fun p =>
    match p with
    | (.fin lng, .fin lat) => some (lat, lng)
    | _ => none

def minList (x : ℚ) (xs : List ℚ) : ℚ := xs.foldl min x

def maxList (x : ℚ) (xs : List ℚ) : ℚ := xs.foldl max x

/-- The spec's centroid, written from its words rather than from the code:
"scan all points in the chosen ring, compute `minLat/maxLat/minLng/maxLng`,
and return `{ lat: (minLat+maxLat)/2, lng: (minLng+maxLng)/2 }`", skipping
non-finite points, `null` when no finite point exists. -/
def bboxMidpointSpec (pts : List (JNum × JNum)) : Option (ℚ × ℚ) :=
  match finPts pts with
  | [] => none
  | q :: qs =>
    some ((minList q.1 (qs.map Prod.fst) + maxList q.1 (qs.map Prod.fst)) / 2,
          (minList q.2 (qs.map Prod.snd) + maxList q.2 (qs.map Prod.snd)) / 2)

/-! ### The min/max scan computes the spec's bounding-box midpoint -/

/-- One scan step on an already-started box. -/
def stepBox (x : ℚ × ℚ × ℚ × ℚ) (q : ℚ × ℚ) : ℚ × ℚ × ℚ × ℚ :=
  (min x.1 q.1, max x.2.1 q.1, min x.2.2.1 q.2, max x.2.2.2 q.2)

/-- One scan step on an optional box. -/
def stepBoxO (acc : Option (ℚ × ℚ × ℚ × ℚ)) (q : ℚ × ℚ) : Option (ℚ × ℚ × ℚ × ℚ) :=
  match acc with
  | none => some (q.1, q.1, q.2, q.2)
  | some x => some (stepBox x q)

/-! ## Haversine distance

The three copies of the haversine formula, over real numbers (the claims
about them are stated "exactly over real arithmetic"). -/

structure GeoPoint where
  lat : ℝ
  lng : ℝ

/-- Degrees to radians: `(d * π) / 180`. -/
noncomputable def toRad (d : ℝ) : ℝ := d * Real.pi / 180

/-- `Math.atan2` over the reals (standard piecewise definition). -/
noncomputable def atan2 (y x : ℝ) : ℝ :=
  if 0 < x then Real.arctan (y / x)
  else if x < 0 ∧ 0 ≤ y then Real.arctan (y / x) + Real.pi
  else if x < 0 then Real.arctan (y / x) - Real.pi
  else if x = 0 ∧ 0 < y then Real.pi / 2
  else if x = 0 ∧ y < 0 then -(Real.pi / 2)
  else 0

/-- Web client `haversineMeters` (`src/unnamed/part_007`, lines 1-18):
`R = 6371e3`, central angle via `atan2(sqrt x, sqrt (1 - x))`. -/
noncomputable def haversineMeters (a b : GeoPoint) : ℝ :=
  let R : ℝ := 6371000
  let lat1 := toRad a.lat
  let lat2 := toRad b.lat
  let dLat := toRad (b.lat - a.lat)
  let dLon := toRad (b.lng - a.lng)
  let s1 := Real.sin (dLat / 2)
  let s2 := Real.sin (dLon / 2)
  let x := s1 * s1 + Real.cos lat1 * Real.cos lat2 * s2 * s2
  let c := 2 * atan2 (Real.sqrt x) (Real.sqrt (1 - x))
  R * c

/-- Backend `haversineMeters` (`src/server.mjs`, lines 62-73): `R = 6371000`,
central angle via `2 * asin(min(1, sqrt h))`. -/
noncomputable def haversineMetersServer (a b : GeoPoint) : ℝ :=
  let R : ℝ := 6371000
  let dLat := toRad (b.lat - a.lat)
  let dLng := toRad (b.lng - a.lng)
  let lat1 := toRad a.lat
  let lat2 := toRad b.lat
  let s1 := Real.sin (dLat / 2)
  let s2 := Real.sin (dLng / 2)
  let h := s1 * s1 + Real.cos lat1 * Real.cos lat2 * s2 * s2
  2 * R * Real.arcsin (min 1 (Real.sqrt h))

/-- Android client `haversineMeters` (`HomeMapScreen.kt`, lines 850-860):
four scalar arguments, `r = 6371000.0`, central angle via `atan2`. -/
noncomputable def haversineMetersKt (lat1 lng1 lat2 lng2 : ℝ) : ℝ :=
  let r : ℝ := 6371000
  let dLat := toRad (lat2 - lat1)
  let dLng := toRad (lng2 - lng1)
  let a := Real.sin (dLat / 2) * Real.sin (dLat / 2) +
    Real.cos (toRad lat1) * Real.cos (toRad lat2) *
      Real.sin (dLng / 2) * Real.sin (dLng / 2)
  let c := 2 * atan2 (Real.sqrt a) (Real.sqrt (1 - a))
  r * c

/-! ## Concrete fixtures used by the closed evaluations -/

/-- The spec's unit-square test ring, as GeoJSON `(lng, lat)` positions. -/
def unitSquareRing : List (JNum × JNum) :=
  [(.fin 0, .fin 0), (.fin 0, .fin 1), (.fin 1, .fin 1), (.fin 1, .fin 0), (.fin 0, .fin 0)]

/-- A second square ring far from the first (used as a hole / second part). -/
def farRing : List (JNum × JNum) :=
  [(.fin 10, .fin 10), (.fin 10, .fin 11), (.fin 11, .fin 11), (.fin 11, .fin 10), (.fin 10, .fin 10)]

/-- The spec's Kingston fixture points. -/
noncomputable def kingstonA : GeoPoint := ⟨44.2312, -76.4860⟩

noncomputable def kingstonB : GeoPoint := ⟨44.2270, -76.4930⟩

/-! ## Supporting lemmas -/

/-- `readGroup` always consumes at least its first character. -/
theorem readGroup_length_lt (c : ℤ) (cs : List ℤ) (r : ℤ) (s : ℕ) :
    (readGroup (c :: cs) r s).2.length < (c :: cs).length := by
  induction cs generalizing c r s with
  | nil => simp [readGroup]
  | cons c2 cs2 ih =>
    rw [readGroup]
    split
    · exact lt_trans (ih _ _ _) (by simp)
    · simp

/-- The result of `decodeLoop` does not depend on the fuel, as long as the
fuel strictly exceeds the number of unconsumed characters: the loop consumes
at least one character per iteration, so the `fuel = 0` branch is unreachable
from `decodePolyline` (which passes `length + 1`). -/
theorem decodeLoop_fuel : ∀ (n : ℕ) (l : List ℤ), l.length ≤ n →
    ∀ (f₁ f₂ : ℕ) (lat lng : ℤ) (acc : List (ℤ × ℤ)), l.length < f₁ →
    l.length < f₂ → decodeLoop f₁ l lat lng acc = decodeLoop f₂ l lat lng acc := by
  intro n
  induction n with
  | zero =>
    intro l hl f₁ f₂ lat lng acc h₁ h₂
    have hnil : l = [] := List.eq_nil_of_length_eq_zero (Nat.le_zero.mp hl)
    subst hnil
    cases f₁ with
    | zero => omega
    | succ a =>
      cases f₂ with
      | zero => omega
      | succ b => rfl
  | succ n ih =>
    intro l hl f₁ f₂ lat lng acc h₁ h₂
    cases l with
    | nil =>
      cases f₁ with
      | zero => omega
      | succ a =>
        cases f₂ with
        | zero => omega
        | succ b => rfl
    | cons c cs =>
      cases f₁ with
      | zero => omega
      | succ a =>
        cases f₂ with
        | zero => omega
        | succ b =>
          have hp1 := readGroup_length_lt c cs 0 0
          simp only [decodeLoop]
          cases hrest : (readGroup (c :: cs) 0 0).2 with
          | nil => rfl
          | cons c2 cs2 =>
            rw [hrest] at hp1
            have hp2 := readGroup_length_lt c2 cs2 0 0
            simp only [List.length_cons] at hp1 hp2 hl h₁ h₂
            exact ih _ (by omega) a b _ _ _ (by omega) (by omega)

theorem visitPt_fin (acc : Option (ℚ × ℚ × ℚ × ℚ)) (lng lat : ℚ) :
    visitPt acc (JNum.fin lng, JNum.fin lat) = stepBoxO acc (lat, lng) := by
  cases acc <;> rfl

theorem foldl_visitPt_eq (pts : List (JNum × JNum)) :
    ∀ acc, pts.foldl visitPt acc = (finPts pts).foldl stepBoxO acc := by
  induction pts with
  | nil => intro acc; rfl
  | cons p rest ih =>
    intro acc
    obtain ⟨p1, p2⟩ := p
    cases p1 <;> cases p2 <;>
      simp only [finPts, List.filterMap_cons, List.foldl_cons, visitPt_fin] <;>
      exact ih _

theorem foldl_stepBoxO_some (L : List (ℚ × ℚ)) :
    ∀ x, L.foldl stepBoxO (some x) = some (L.foldl stepBox x) := by
  induction L with
  | nil => intro x; rfl
  | cons q L ih =>
    intro x
    rw [List.foldl_cons, List.foldl_cons]
    exact ih _

theorem foldl_stepBox_eq (L : List (ℚ × ℚ)) : ∀ x : ℚ × ℚ × ℚ × ℚ,
    L.foldl stepBox x =
      (minList x.1 (L.map Prod.fst), maxList x.2.1 (L.map Prod.fst),
       minList x.2.2.1 (L.map Prod.snd), maxList x.2.2.2 (L.map Prod.snd)) := by
  induction L with
  | nil => intro x; rfl
  | cons q L ih =>
    intro x
    rw [List.foldl_cons, ih]
    rfl

/-- The Option-threaded min/max scan is the spec's bounding-box midpoint of
the finite points. -/
theorem scan_eq_spec (pts : List (JNum × JNum)) :
    boxMid (pts.foldl visitPt none) = bboxMidpointSpec pts := by
  rw [foldl_visitPt_eq]
  cases h : finPts pts with
  | nil => simp [bboxMidpointSpec, h, boxMid]
  | cons q qs =>
    rw [List.foldl_cons]
    rw [show stepBoxO none q = some (q.1, q.1, q.2, q.2) from rfl,
      foldl_stepBoxO_some, foldl_stepBox_eq]
    simp [boxMid, bboxMidpointSpec, h]

/-- `centroidFromCoords` on a ring is the spec's bounding-box midpoint of the
ring's finite points. -/
theorem centroid_ring_spec (pts : List (JNum × JNum)) :
    centroidFromCoords (.ring pts) = bboxMidpointSpec pts := by
  rw [centroidFromCoords]
  exact scan_eq_spec pts

/-- `centroidFromCoords` on a nested array is the bounding-box midpoint of
the visited sub-centroids. -/
theorem centroid_nest_spec (subs : List Coords) :
    centroidFromCoords (.nest subs) = bboxMidpointSpec (subCentroids subs) := by
  rw [centroidFromCoords]
  exact scan_eq_spec _

/-- The web scan is the bounding-box midpoint over the points of all rings of
all polygons. -/
theorem lotCentroidScan_eq_spec (polys : List (List (List (JNum × JNum)))) :
    lotCentroidScan polys = bboxMidpointSpec polys.flatten.flatten := by
  rw [lotCentroidScan, ← List.foldl_flatten, ← List.foldl_flatten]
  exact scan_eq_spec _

/-- Skipping is invariant: dropping the non-finite points of a ring does not
change the server centroid. -/
theorem finPts_filter (pts : List (JNum × JNum)) :
    finPts (pts.filter fun p => p.1.isFinite && p.2.isFinite) = finPts pts := by
  induction pts with
  | nil => rfl
  | cons p rest ih =>
    obtain ⟨p1, p2⟩ := p
    cases p1 <;> cases p2 <;>
      simp only [List.filter_cons, JNum.isFinite, Bool.and_self, Bool.and_false,
        Bool.and_true, Bool.false_and, Bool.true_and, if_true, if_false,
        finPts, List.filterMap_cons, ih] <;>
      simp [finPts] at ih ⊢ <;> exact ih

/-- The haversine central-angle argument is symmetric in the two points:
`Δlat` and `Δlng` flip sign, `sin` is odd, and the squares cancel the sign. -/
theorem havArg_symm (la1 ln1 la2 ln2 : ℝ) :
    Real.sin (toRad (la2 - la1) / 2) * Real.sin (toRad (la2 - la1) / 2) +
      Real.cos (toRad la1) * Real.cos (toRad la2) *
        Real.sin (toRad (ln2 - ln1) / 2) * Real.sin (toRad (ln2 - ln1) / 2) =
    Real.sin (toRad (la1 - la2) / 2) * Real.sin (toRad (la1 - la2) / 2) +
      Real.cos (toRad la2) * Real.cos (toRad la1) *
        Real.sin (toRad (ln1 - ln2) / 2) * Real.sin (toRad (ln1 - ln2) / 2) := by
  have h1 : toRad (la1 - la2) / 2 = -(toRad (la2 - la1) / 2) := by
    unfold toRad; ring
  have h2 : toRad (ln1 - ln2) / 2 = -(toRad (ln2 - ln1) / 2) := by
    unfold toRad; ring
  rw [h1, h2, Real.sin_neg, Real.sin_neg]
  ring

theorem haversineMeters_symm (a b : GeoPoint) :
    haversineMeters a b = haversineMeters b a := by
  simp only [haversineMeters]
  rw [havArg_symm a.lat a.lng b.lat b.lng]

theorem haversineMetersServer_symm (a b : GeoPoint) :
    haversineMetersServer a b = haversineMetersServer b a := by
  simp only [haversineMetersServer]
  rw [havArg_symm a.lat a.lng b.lat b.lng]

theorem haversineMetersKt_symm (la1 ln1 la2 ln2 : ℝ) :
    haversineMetersKt la1 ln1 la2 ln2 = haversineMetersKt la2 ln2 la1 ln1 := by
  simp only [haversineMetersKt]
  rw [havArg_symm la1 ln1 la2 ln2]

/-! ## Claims -/

/-- C1: the claim states that every truncated input decodes, without
crashing, to exactly the fully decoded points.  The code does neither: on
`"_p~iF"` (a complete latitude group, then end of string) the longitude
do-while reads `poly[index++]` past the end and throws (modelled `none`), and
on `"_p~iF~"` (truncation inside the longitude group) the decoder emits an
extra point built from the partial group (delta `-16`) instead of returning
the zero fully-decoded points. -/
theorem decodePolyline_truncated_eval :
    decodePolyline "_p~iF" = none ∧
    decodePolyline "_p~iF~" = some [(3850000, -16)] := by
  constructor <;> decide

/-- C2: decoding the canonical Google example string yields the three
reference points, each the running integer accumulator divided by 1e5. -/
theorem decodePolyline_canonical_example :
    decodePolyline "_p~iF~ps|U_ulLnnqC_mqNvxq`@" =
      some [(3850000, -12020000), (4070000, -12095000), (4325200, -12645300)] ∧
    decodePolylineLatLngs "_p~iF~ps|U_ulLnnqC_mqNvxq`@" =
      some [(38.5, -120.2), (40.7, -120.95), (43.252, -126.453)] := by
  have h : decodePolyline "_p~iF~ps|U_ulLnnqC_mqNvxq`@" =
      some [(3850000, -12020000), (4070000, -12095000), (4325200, -12645300)] := by
    decide
  refine ⟨h, ?_⟩
  simp only [decodePolylineLatLngs, h, Option.map_some, List.map_cons, List.map_nil]
  norm_num

/-- C3 counterexample: on the spec's own unit-square ring the Android
extractor `computeCentroid` returns the arithmetic mean `(2/5, 2/5)` of the
five ring points, not the bounding-box midpoint `(1/2, 1/2)`. -/
theorem computeCentroid_mean_counterexample :
    computeCentroid (.polygon [unitSquareRing]) = some (.fin (2/5), .fin (2/5)) ∧
    bboxMidpointSpec unitSquareRing = some (1/2, 1/2) ∧
    ((JNum.fin (2/5), JNum.fin (2/5)) : JNum × JNum) ≠ (JNum.fin (1/2), JNum.fin (1/2)) := by
  refine ⟨?_,
    by norm_num [bboxMidpointSpec, finPts, unitSquareRing, minList, maxList,
      List.filterMap_cons, min_def, max_def],
    by norm_num [Prod.ext_iff]⟩
  simp [computeCentroid, extractPolygonPoints, unitSquareRing, sumJ, JNum.isNaN,
    JNum.add, JNum.divNat]
  norm_num

/-- C3 (amended): the server extractor on a ring and the web extractor are
the bounding-box midpoint of the scanned finite points; the Android
`computeCentroid`, by contrast, returns the arithmetic mean (witnessed on the
unit square, where the mean is `(2/5, 2/5)`). -/
theorem centroid_bbox_midpoint_amended :
    (∀ pts, centroidFromCoords (.ring pts) = bboxMidpointSpec pts) ∧
    (∀ polys, lotCentroidScan polys = bboxMidpointSpec polys.flatten.flatten) ∧
    computeCentroid (.polygon [unitSquareRing]) = some (.fin (2/5), .fin (2/5)) := by
  refine ⟨centroid_ring_spec, lotCentroidScan_eq_spec, ?_⟩
  simp [computeCentroid, extractPolygonPoints, unitSquareRing, sumJ, JNum.isNaN,
    JNum.add, JNum.divNat]
  norm_num

/-- C4 counterexample: adding a hole ring (or a second polygon) does change
the centroid.  For the server extractor, the square plus a far hole moves the
centroid from `(1/2, 1/2)` to `(11/2, 11/2)` (polygon case and multipolygon
case), and the web scan moves the same way. -/
theorem centroid_holes_counterexample :
    centroidFromCoords (.nest [.ring unitSquareRing]) = some (1/2, 1/2) ∧
    centroidFromCoords (.nest [.ring unitSquareRing, .ring farRing]) = some (11/2, 11/2) ∧
    centroidFromCoords (.nest [.nest [.ring unitSquareRing]]) = some (1/2, 1/2) ∧
    centroidFromCoords (.nest [.nest [.ring unitSquareRing], .nest [.ring farRing]]) =
      some (11/2, 11/2) ∧
    lotCentroidScan [[unitSquareRing]] = some (1/2, 1/2) ∧
    lotCentroidScan [[unitSquareRing, farRing]] = some (11/2, 11/2) ∧
    (some ((1:ℚ)/2, (1:ℚ)/2) : Option (ℚ × ℚ)) ≠ some (11/2, 11/2) := by
  refine ⟨?_, ?_, ?_, ?_, ?_, ?_, by norm_num⟩ <;>
    norm_num [centroidFromCoords, subCentroids, lotCentroidScan, visitPt, boxMid,
      unitSquareRing, farRing, min_def, max_def]

/-- C4 (amended): neither cited extractor restricts itself to the outer ring
of the first polygon.  The server extractor aggregates the centroids of all
sub-arrays (holes and later polygons included) and returns the bounding-box
midpoint of those; the web extractor scans every point of every ring of every
polygon. -/
theorem centroid_all_parts_amended :
    (∀ subs, centroidFromCoords (.nest subs) = bboxMidpointSpec (subCentroids subs)) ∧
    (∀ polys, lotCentroidScan polys = bboxMidpointSpec polys.flatten.flatten) :=
  ⟨centroid_nest_spec, lotCentroidScan_eq_spec⟩

/-- C5 counterexample: the web client's formatDistance prints the kilometer
value with two decimal places, not one: formatDistance(1000) is "1.00 km". -/
theorem formatDistance_two_decimals_counterexample :
    formatDistance 1000 = "1.00 km" ∧ "1.00 km" ≠ "1.0 km" := by
  constructor
  · norm_num [formatDistance, toFixed2, twoDigits]
    rfl
  · decide

/-- C5 (amended): at the spec's boundary inputs the web client formats the
meter branch as claimed but the kilometer branch with exactly two decimal
places; the Android client formats with one decimal place (and the default
locale's separator — shown here with the point separator). -/
theorem formatDistance_boundary_amended :
    formatDistance 999 = "999 m" ∧
    formatDistance 1000 = "1.00 km" ∧
    formatDistance 1549 = "1.55 km" ∧
    formatDistanceKt '.' 999 = "999 m" ∧
    formatDistanceKt '.' 1000 = "1.0 km" ∧
    formatDistanceKt '.' 1549 = "1.5 km" := by
  refine ⟨?_, ?_, ?_, ?_, ?_, ?_⟩
  · norm_num [formatDistance, jsRound]; rfl
  · norm_num [formatDistance, toFixed2, twoDigits]; rfl
  · norm_num [formatDistance, toFixed2, twoDigits]; rfl
  · norm_num [formatDistanceKt, halfUp]; rfl
  · norm_num [formatDistanceKt, halfUp]; rfl
  · norm_num [formatDistanceKt, halfUp]; rfl

/-- C6 counterexample: the Android extractor does not skip points with an
Infinity coordinate — `isNaN` is false for infinities — so a ring whose only
point has longitude `+∞` yields a non-null centroid `(1, +∞)` where the claim
requires null. -/
theorem computeCentroid_infinity_counterexample :
    computeCentroid (.polygon [[(.inf, .fin 1)]]) = some (.fin 1, .inf) ∧
    computeCentroid (.polygon [[(.inf, .fin 1)]]) ≠ none := by
  constructor
  · simp [computeCentroid, extractPolygonPoints, sumJ, JNum.isNaN, JNum.add, JNum.divNat]
  · simp [computeCentroid, extractPolygonPoints, sumJ, JNum.isNaN, JNum.add, JNum.divNat]

/-- C6 (amended): the server extractor behaves as claimed — empty ring gives
null, non-finite points are skipped (dropping them changes nothing), and the
result is null exactly when no finite point was scanned; the Android
extractor returns null exactly when the kept point list is empty, but its
filter skips only NaN coordinates (dropping NaN points changes nothing),
while infinities are kept. -/
theorem centroid_degenerate_amended :
    centroidFromCoords (.ring []) = none ∧
    (∀ pts, centroidFromCoords (.ring (pts.filter fun p => p.1.isFinite && p.2.isFinite)) =
      centroidFromCoords (.ring pts)) ∧
    (∀ pts, centroidFromCoords (.ring pts) = none ↔ finPts pts = []) ∧
    (∀ rings, computeCentroid (.polygon rings) = none ↔ extractPolygonPoints rings = []) ∧
    (∀ ring rest,
      computeCentroid (.polygon ((ring.filter fun p => !p.1.isNaN && !p.2.isNaN) :: rest)) =
        computeCentroid (.polygon (ring :: rest))) := by
  refine ⟨?_, ?_, ?_, ?_, ?_⟩
  · rw [centroid_ring_spec]; rfl
  · intro pts
    rw [centroid_ring_spec, centroid_ring_spec]
    unfold bboxMidpointSpec
    rw [finPts_filter]
  · intro pts
    rw [centroid_ring_spec]
    unfold bboxMidpointSpec
    cases finPts pts <;> simp
  · intro rings
    simp only [computeCentroid]
    by_cases h : extractPolygonPoints rings = []
    · simp [h]
    · simp [List.isEmpty_iff, h]
  · intro ring rest
    simp only [computeCentroid, extractPolygonPoints, List.filter_filter, Bool.and_self]

/-- C7: all three haversine copies are symmetric in their two (valid)
points, exactly over real arithmetic. -/
theorem distanceMeters_symm (a b : GeoPoint)
    (_ha : -90 ≤ a.lat ∧ a.lat ≤ 90 ∧ -180 ≤ a.lng ∧ a.lng ≤ 180)
    (_hb : -90 ≤ b.lat ∧ b.lat ≤ 90 ∧ -180 ≤ b.lng ∧ b.lng ≤ 180) :
    haversineMeters a b = haversineMeters b a ∧
    haversineMetersServer a b = haversineMetersServer b a ∧
    haversineMetersKt a.lat a.lng b.lat b.lng = haversineMetersKt b.lat b.lng a.lat a.lng :=
  ⟨haversineMeters_symm a b, haversineMetersServer_symm a b,
    haversineMetersKt_symm a.lat a.lng b.lat b.lng⟩

/-- C7 witness: the symmetry instantiated at the two Kingston fixture
points, whose coordinates satisfy the validity bounds. -/
theorem distanceMeters_symm_witness :
    haversineMeters kingstonA kingstonB = haversineMeters kingstonB kingstonA ∧
    haversineMetersServer kingstonA kingstonB = haversineMetersServer kingstonB kingstonA ∧
    haversineMetersKt kingstonA.lat kingstonA.lng kingstonB.lat kingstonB.lng =
      haversineMetersKt kingstonB.lat kingstonB.lng kingstonA.lat kingstonA.lng :=
  distanceMeters_symm kingstonA kingstonB
    (by norm_num [kingstonA]) (by norm_num [kingstonB])

/-- C8: after trimming, an empty or whitespace-only input decodes to the
empty sequence, as a normal result. -/
theorem decodePolyline_blank_input (s : String) (h : kotlinTrim s.toList = []) :
    decodePolyline s = some [] := by
  simp only [decodePolyline, h]
  rfl

/-- C8 witness: the whitespace-only string of two spaces trims to nothing
and decodes to the empty sequence. -/
theorem decodePolyline_blank_input_witness :
    kotlinTrim "  ".toList = [] ∧ decodePolyline "  " = some [] :=
  ⟨by decide, decodePolyline_blank_input "  " (by decide)⟩

/-- C9: the bounding-region test accepts a point exactly when its latitude
lies between the Kingston minimum and maximum latitude and its longitude
between the minimum and maximum longitude, all four comparisons inclusive —
so boundary points are reported inside. -/
theorem isInKingstonBounds_inclusive_iff (lat lng : ℚ) :
    isInKingstonBounds lat lng = true ↔
      (KINGSTON_MIN_LAT ≤ lat ∧ lat ≤ KINGSTON_MAX_LAT ∧
       KINGSTON_MIN_LNG ≤ lng ∧ lng ≤ KINGSTON_MAX_LNG) := by
  simp [isInKingstonBounds, and_assoc]

/-- C10: for meters in `[999.5, 1000)` the web client takes the meter branch
but rounds up to 1000, printing "1000 m" — a meter-branch output at the
kilometer threshold. -/
theorem formatDistance_meter_branch_above_threshold (m : ℚ)
    (h1 : 999.5 ≤ m) (h2 : m < 1000) : formatDistance m = "1000 m" := by
  simp only [formatDistance, if_pos h2]
  have hr : jsRound m = 1000 := by
    rw [jsRound, Int.floor_eq_iff]
    constructor
    · push_cast; linarith
    · push_cast; linarith
  rw [hr]
  rfl

/-- C10 witness: at 999.9 meters the meter branch prints "1000 m". -/
theorem formatDistance_meter_branch_above_threshold_witness :
    (999.5 ≤ (999.9 : ℚ) ∧ (999.9 : ℚ) < 1000) ∧ formatDistance 999.9 = "1000 m" :=
  ⟨by norm_num,
    formatDistance_meter_branch_above_threshold 999.9 (by norm_num) (by norm_num)⟩

end ParkingGeo
